import Mathlib

/-!
Verification development for the lagatrix_api repository (an HTTP façade over
privileged OS administration operations).

The development shallowly embeds, from the Python sources under `src/`:

* `auth_user` (src/api/dependencies.py) — credential extraction and the
  execution-context factory, including Python's `base64.b64decode` semantics
  (validate=False) and strict UTF-8 decoding of the decoded secret;
* the 27 endpoint handler bodies of the user, group, crontab, hardware
  (cpu/gpu/ram), storage and host routers, each embedded as a function from
  the outcomes of its domain-manager calls to the HTTP response it produces,
  together with the trace of domain-manager methods it invokes;
* the route table of success status codes taken from the router decorators.

External collaborator behaviour that is not part of the repository
(`shell_executor_lib.CommandManager.init` and the libraries' exception
hierarchy) is modelled from the specification, as flagged in doc comments.
-/

/-! ## Python base64.b64decode (validate=False), as invoked on a `str` -/

/-- Index of a character in the standard base64 alphabet, `none` when the
character is not in the alphabet.  Characters outside the alphabet are
discarded by `b64decode` when `validate=False` (the repository calls it with
the default). -/
def b64Index (c : Char) : Option Nat :=
  if 'A' ≤ c ∧ c ≤ 'Z' then some (c.toNat - 'A'.toNat)
  else if 'a' ≤ c ∧ c ≤ 'z' then some (c.toNat - 'a'.toNat + 26)
  else if '0' ≤ c ∧ c ≤ '9' then some (c.toNat - '0'.toNat + 52)
  else if c = '+' then some 62
  else if c = '/' then some 63
  else none

/-- Error raised by `binascii` while base64-decoding: input ending on a
group of exactly one data character, carrying the count of data characters
(CPython: "Invalid base64-encoded string: number of data characters (N)
cannot be 1 more than a multiple of 4"), or input ending on an
insufficiently padded group of two or three (CPython: "Incorrect
padding"). -/
inductive BinErr where
  | invalidLength (n : Nat)
  | incorrectPadding
deriving DecidableEq

/-- The `str(...)` rendering of a `binascii.Error`. -/
def binErrMsg : BinErr → String
  | .invalidLength n =>
      "Invalid base64-encoded string: number of data characters (" ++
        toString n ++ ") cannot be 1 more than a multiple of 4"
  | .incorrectPadding => "Incorrect padding"

/-- Bytes produced by a group of 2, 3 or 4 sextets (a trailing group of 2 or
3 sextets arises from `=` padding and yields 1 or 2 bytes). -/
def emitGroup : List Nat → List Nat
  | [a, b] => [a * 4 + b / 16]
  | [a, b, c] => [a * 4 + b / 16, (b % 16) * 16 + c / 4]
  | [a, b, c, d] => [a * 4 + b / 16, (b % 16) * 16 + c / 4, (c % 4) * 64 + d]
  | _ => []

/-- Core loop of `binascii.a2b_base64` in non-strict mode, carrying the
accumulated bytes `acc`, the current group's sextets `buf` (CPython's
`quad_pos`/`leftchar`), the running pad count `pads`, and the number of data
characters seen `n`.  Characters outside the alphabet are ignored and leave
`pads` untouched.  A `=` is ignored while fewer than two sextets are
buffered; with two or more it increments `pads` and only terminates the
input successfully once the group is complete (`buf.length + pads` reaches
4, i.e. `eA==` needs both pads while `abc=` needs one).  A data character
resets `pads`.  Input ending on a group of one sextet is the "1 more than a
multiple of 4" error carrying the data-character count; input ending on an
unterminated group of two or three sextets is "Incorrect padding". -/
def b64Run : List Char → List Nat → List Nat → Nat → Nat → Except BinErr (List Nat)
  | [], acc, buf, _, n =>
    if buf.length = 0 then .ok acc
    else if buf.length = 1 then .error (.invalidLength n)
    else .error .incorrectPadding
  | c :: cs, acc, buf, pads, n =>
    if c = '=' then
      if 2 ≤ buf.length then
        if 4 ≤ buf.length + (pads + 1) then .ok (acc ++ emitGroup buf)
        else b64Run cs acc buf (pads + 1) n
      else b64Run cs acc buf pads n
    else
      match b64Index c with
      | some v =>
        if buf.length = 3 then b64Run cs (acc ++ emitGroup (buf ++ [v])) [] 0 (n + 1)
        else b64Run cs acc (buf ++ [v]) 0 (n + 1)
      | none => b64Run cs acc buf pads n

/-- Outcome of `base64.b64decode(password)` on a Python `str`: the byte
string, a `binascii.Error`, or — when the string has a non-ASCII character —
the plain `ValueError` raised by `base64._bytes_from_decode_data` ("string
argument should contain only ASCII characters"). -/
inductive B64Result where
  | ok (bytes : List Nat)
  | binError (e : BinErr)
  | asciiError
deriving DecidableEq

/-- `base64.b64decode` applied to a `str` with `validate=False`: the string
is first encoded as ASCII (a non-ASCII character raises `ValueError`, which
is not a `binascii.Error`), then decoded by `binascii.a2b_base64`. -/
def pyB64Decode (s : String) : B64Result :=
  if s.data.all (fun c => c.toNat < 128) then
    match b64Run s.data [] [] 0 0 with
    | .ok bs => .ok bs
    | .error e => .binError e
  else .asciiError

/-! ## Python strict UTF-8 decoding of the secret bytes -/

/-- Whether `bytes.decode('utf-8')` succeeds on the byte string: standard
UTF-8 validity (no continuation-only leads, no overlong forms, no surrogates,
no code points above U+10FFFF).  Python raises `UnicodeDecodeError` exactly
when this is false. -/
def validUtf8 : List Nat → Bool
  | [] => true
  | b :: rest =>
    if b < 128 then validUtf8 rest
    else if b < 194 then false
    else if b < 224 then
      match rest with
      | c :: r => decide (128 ≤ c) && decide (c < 192) && validUtf8 r
      | [] => false
    else if b < 240 then
      match rest with
      | c :: d :: r =>
        decide ((if b = 224 then 160 else 128) ≤ c) &&
        decide (c < (if b = 237 then 160 else 192)) &&
        decide (128 ≤ d) && decide (d < 192) && validUtf8 r
      | _ => false
    else if b < 245 then
      match rest with
      | c :: d :: e :: r =>
        decide ((if b = 240 then 144 else 128) ≤ c) &&
        decide (c < (if b = 244 then 144 else 192)) &&
        decide (128 ≤ d) && decide (d < 192) &&
        decide (128 ≤ e) && decide (e < 192) && validUtf8 r
      | _ => false
    else false

/-! ## The execution-context factory `auth_user` (src/api/dependencies.py) -/

/-- The request-scoped execution context: `CommandManager` carries the
authenticated user (src uses `command_manager.user` in `make_login`). -/
structure CommandManagerT where
  user : String
deriving DecidableEq

/-- The operating-system state visible to `CommandManager.init`: the password
database (identity, password bytes) and whether the command-execution
subsystem itself is faulty. -/
structure OsWorld where
  users : List (String × List Nat)
  execFault : Bool

/-- Outcome of the OS-level identity check. -/
inductive InitOutcome where
  | ok (cm : CommandManagerT)
  | authError (msg : String)
  | cmdError (msg : String)
deriving DecidableEq

/-- Modelled from the spec: `CommandManager.init` (shell_executor_lib, not
under src/) performs the OS-level identity check against the system's
password database.  It raises `AuthenticationError` when the identity is
unknown or the secret is incorrect — the two indistinguishable to the caller
— and `CommandError` when the validation mechanism itself cannot run.  On
success the context's identity is the validated identity. -/
def commandManagerInit (world : OsWorld) (u : String) (p : List Nat) : InitOutcome :=
  if world.execFault then .cmdError "Command error."
  else
    match world.users.find? (fun e => e.1 == u) with
    | some e => if e.2 == p then .ok ⟨u⟩ else .authError "Authentication failure."
    | none => .authError "Authentication failure."

/-- Exceptions that can be raised inside the `try` body of `auth_user`:
`binascii.Error` from `b64decode`, the plain `ValueError` from a non-ASCII
secret, `UnicodeDecodeError` from `.decode('utf-8')`, and the collaborator's
`AuthenticationError` and `CommandError`. -/
inductive AuthExc where
  | binasciiError (e : BinErr)
  | valueErrorNonAscii
  | unicodeDecodeError
  | authenticationError (msg : String)
  | commandError (msg : String)
deriving DecidableEq

/-- An `HTTPException` as raised by the gateway: status code and detail. -/
structure HttpError where
  status : Nat
  detail : String
deriving DecidableEq

/-- The three `except` clauses of `auth_user`, in source order:
`binascii.Error` maps to 400 with the error's message, `AuthenticationError`
to 401, `CommandError` to 500; any other exception is caught by no clause
(`none`).  `UnicodeDecodeError` and the non-ASCII `ValueError` are not
`binascii.Error` instances, so they fall through. -/
def authExcToHttp : AuthExc → Option HttpError
  | .binasciiError e => some ⟨400, binErrMsg e⟩
  | .authenticationError m => some ⟨401, m⟩
  | .commandError m => some ⟨500, m⟩
  | .valueErrorNonAscii => none
  | .unicodeDecodeError => none

/-- The `try` body of `auth_user`:
`CommandManager.init(username, base64.b64decode(password).decode('utf-8'))`.
The returned Bool records whether `CommandManager.init` was invoked. -/
def authUserBody (world : OsWorld) (u p : String) :
    Except AuthExc CommandManagerT × Bool :=
  match pyB64Decode p with
  | .asciiError => (.error .valueErrorNonAscii, false)
  | .binError e => (.error (.binasciiError e), false)
  | .ok bytes =>
    if validUtf8 bytes then
      match commandManagerInit world u bytes with
      | .ok cm => (.ok cm, true)
      | .authError m => (.error (.authenticationError m), true)
      | .cmdError m => (.error (.commandError m), true)
    else (.error .unicodeDecodeError, false)

/-- Result of running `auth_user`: a context, an `HTTPException`, or an
exception that escaped every handler. -/
inductive AuthResult where
  | ok (cm : CommandManagerT)
  | httpError (e : HttpError)
  | uncaught (e : AuthExc)
deriving DecidableEq

/-- `auth_user` (src/api/dependencies.py): when either header is absent it
raises HTTP 400 "Required headers are missing."; otherwise it runs the `try`
body and translates any raised exception through the three `except` clauses.
The Bool records whether `CommandManager.init` was invoked. -/
def auth_user (world : OsWorld) (username password : Option String) :
    AuthResult × Bool :=
  match username, password with
  | some u, some p =>
    match authUserBody world u p with
    | (.ok cm, c) => (.ok cm, c)
    | (.error e, c) =>
      match authExcToHttp e with
      | some h => (.httpError h, c)
      | none => (.uncaught e, c)
  | _, _ => (.httpError ⟨400, "Required headers are missing."⟩, false)

example : pyB64Decode "eA==" = .ok [120] := by decide
example : pyB64Decode "cA==" = .ok [112] := by decide
example : pyB64Decode "/w==" = .ok [255] := by decide
example : pyB64Decode "aGk=" = .ok [104, 105] := by decide
example : pyB64Decode "a" = .binError (.invalidLength 1) := by decide
example : pyB64Decode "aaaaa" = .binError (.invalidLength 5) := by decide
example : pyB64Decode "abc" = .binError .incorrectPadding := by decide
example : pyB64Decode "eA=" = .binError .incorrectPadding := by decide
example : pyB64Decode "/w=" = .binError .incorrectPadding := by decide
example : pyB64Decode "eA=B" = .binError .incorrectPadding := by decide
example : pyB64Decode "eA=a=" = .ok [120, 6] := by decide
example : pyB64Decode "ab==cd" = .ok [105] := by decide
example : pyB64Decode "eAeA=eA=" = .binError .incorrectPadding := by decide
example : pyB64Decode "a=" = .binError (.invalidLength 1) := by decide
example : pyB64Decode "é" = .asciiError := by decide
example : pyB64Decode "" = .ok [] := by decide
example : pyB64Decode "=" = .ok [] := by decide
example : validUtf8 [255] = false := by decide
example : validUtf8 [120] = true := by decide
example : validUtf8 [194, 169] = true := by decide
example : validUtf8 [194] = false := by decide
example : validUtf8 [192, 175] = false := by decide
example : validUtf8 [224, 160, 128] = true := by decide
example : validUtf8 [224, 159, 191] = false := by decide
example : validUtf8 [237, 159, 191] = true := by decide
example : validUtf8 [237, 160, 128] = false := by decide
example : validUtf8 [240, 144, 128, 128] = true := by decide
example : validUtf8 [240, 143, 191, 191] = false := by decide
example : validUtf8 [244, 143, 191, 191] = true := by decide
example : validUtf8 [244, 144, 128, 128] = false := by decide
example : validUtf8 [245, 128, 128, 128] = false := by decide
example : validUtf8 [194, 65] = false := by decide

/-! ## Domain failures raised by the domain managers -/

/-- The closed set of exception classes the endpoint handlers name in their
`except` clauses.  They come from groups_users_lib, crontab_lib, gpu_lib and
shell_executor_lib, plus Python's `ValueError`. -/
inductive ExcKind where
  | commandError
  | privilegesError
  | userNotExist
  | userExist
  | userInUse
  | groupNotExist
  | groupExist
  | valueError
  | nonexistentCrontabFile
  | invalidCronFormat
  | notValidGpu
  | driverNotFound
deriving DecidableEq

/-- A raised exception: its class and its `str(...)` message. -/
structure PyExc where
  kind : ExcKind
  msg : String
deriving DecidableEq

/-- Modelled from the spec: the shell-executor library's exception hierarchy
is outside src/.  The spec makes execution failure the catch-all last resort
and every endpoint orders its `PrivilegesError` clause before its
`CommandError` clause, so `PrivilegesError` is modelled as a subclass of
`CommandError`: an `except CommandError` clause catches both. -/
def isCommandError : ExcKind → Bool
  | .commandError => true
  | .privilegesError => true
  | _ => false

/-- Whether `except ValueError` catches the exception (the library-specific
classes are not `ValueError` subclasses). -/
def isValueError : ExcKind → Bool
  | .valueError => true
  | _ => false

/-- The response an endpoint handler produces: a success with the status code
declared on the route decorator and the returned value, an `HTTPException`,
or an exception that no `except` clause of the handler caught. -/
inductive EPResult (α : Type) where
  | success (code : Nat) (value : α)
  | failure (e : HttpError)
  | unhandled (e : PyExc)
deriving DecidableEq

/-- The domain-manager methods (and the async GPU manager factory) that the
endpoint handlers invoke. -/
inductive MgrCall where
  | getUsers | getUser | addUser | editUser | deleteUser
  | getGroups | getGroup | addGroup | editGroup
  | addUserToGroup | removeUserFromGroup | deleteGroup
  | getCronJobs | addCronJob | editCronJob | deleteCronJob
  | getCpu | getCpuUse | getCpuTemperature
  | gpuInit | getGpu | getGpuUse | getGpuTemperature
  | getRam | getRamUse
  | getDisks | getHost
deriving DecidableEq

/-- The `User` body model, restricted to the fields the handlers inspect. -/
structure UserT where
  name : Option String
  password : Option String
deriving DecidableEq

/-- The `Group` body model, restricted to the fields the handlers inspect. -/
structure GroupT where
  name : Option String
deriving DecidableEq

/-- The `CronJob` body model; the handlers never inspect its fields. -/
structure CronJobT where
  raw : String
deriving DecidableEq

/-- The GPU manager produced by `GpuManager.init`. -/
inductive GpuManagerT where
  | mk
deriving DecidableEq

/-! ## User endpoints (src/api/endpoints/user_endpoint.py) -/

/-- GET /user/login: returns the welcome message; no domain-manager call. -/
def make_login (command_manager : CommandManagerT) :
    EPResult String × List MgrCall :=
  (.success 200 ("Welcome " ++ command_manager.user ++ "!"), [])

/-- GET /user/: one `get_users` call; `except CommandError` maps to 500. -/
def get_users (res : Except PyExc (List UserT)) :
    EPResult (List UserT) × List MgrCall :=
  (match res with
   | .ok v => .success 200 v
   | .error e =>
     if isCommandError e.kind then .failure ⟨500, e.msg⟩
     else .unhandled e,
   [.getUsers])

/-- GET /user/\x7buser\x7d: validates the path value, then one `get_user`
call; `UserNotExistError` maps to 404 and `CommandError` to 500. -/
def get_user (user : Option String) (res : Except PyExc UserT) :
    EPResult UserT × List MgrCall :=
  match user with
  | none => (.failure ⟨400, "The user is required."⟩, [])
  | some _ =>
    (match res with
     | .ok v => .success 200 v
     | .error e =>
       if e.kind = .userNotExist then .failure ⟨404, e.msg⟩
       else if isCommandError e.kind then .failure ⟨500, e.msg⟩
       else .unhandled e,
     [.getUser])

/-- The `except` chain shared by both calls inside the `try` of POST /user/:
ValueError to 400, PrivilegesError to 403, GroupNotExistError to 400,
UserExistError to 409, CommandError to 500. -/
def post_user_translate (e : PyExc) : EPResult UserT :=
  if isValueError e.kind then .failure ⟨400, e.msg⟩
  else if e.kind = .privilegesError then .failure ⟨403, e.msg⟩
  else if e.kind = .groupNotExist then .failure ⟨400, e.msg⟩
  else if e.kind = .userExist then .failure ⟨409, e.msg⟩
  else if isCommandError e.kind then .failure ⟨500, e.msg⟩
  else .unhandled e

/-- POST /user/: validates the body, then `add_user` followed by a re-fetch
via `get_user`; success answers 201 with the re-fetched user. -/
def post_user (user : Option UserT) (addRes : Except PyExc Unit)
    (getRes : Except PyExc UserT) : EPResult UserT × List MgrCall :=
  match user with
  | none => (.failure ⟨400, "The user is required."⟩, [])
  | some u =>
    match u.name with
    | none => (.failure ⟨400, "The user is required."⟩, [])
    | some _ =>
      match addRes with
      | .error e => (post_user_translate e, [.addUser])
      | .ok _ =>
        match getRes with
        | .error e => (post_user_translate e, [.addUser, .getUser])
        | .ok v => (.success 201 v, [.addUser, .getUser])

/-- The `except` chain of PUT /user/\x7buser\x7d: the tuple clause
`(ValueError, GroupNotExistError)` to 400, PrivilegesError to 403,
UserNotExistError to 404, UserExistError and UserInUseError to 409,
CommandError to 500. -/
def put_user_translate (e : PyExc) : EPResult UserT :=
  if isValueError e.kind ∨ e.kind = .groupNotExist then .failure ⟨400, e.msg⟩
  else if e.kind = .privilegesError then .failure ⟨403, e.msg⟩
  else if e.kind = .userNotExist then .failure ⟨404, e.msg⟩
  else if e.kind = .userExist then .failure ⟨409, e.msg⟩
  else if e.kind = .userInUse then .failure ⟨409, e.msg⟩
  else if isCommandError e.kind then .failure ⟨500, e.msg⟩
  else .unhandled e

/-- PUT /user/\x7buser\x7d: validates both inputs, then `edit_user` followed
by a re-fetch via `get_user`; success answers 200 with the re-fetched user. -/
def put_user (user : Option String) (user_changes : Option UserT)
    (editRes : Except PyExc Unit) (getRes : Except PyExc UserT) :
    EPResult UserT × List MgrCall :=
  match user with
  | none => (.failure ⟨400, "The username is required."⟩, [])
  | some _ =>
    match user_changes with
    | none => (.failure ⟨400, "The user changes is required."⟩, [])
    | some _ =>
      match editRes with
      | .error e => (put_user_translate e, [.editUser])
      | .ok _ =>
        match getRes with
        | .error e => (put_user_translate e, [.editUser, .getUser])
        | .ok v => (.success 200 v, [.editUser, .getUser])

/-- DELETE /user/\x7buser\x7d: validates the path value, then one
`delete_user` call; UserNotExistError to 404, PrivilegesError to 403,
UserInUseError to 409, CommandError to 500; success answers 204, no body. -/
def delete_user (user : Option String) (delRes : Except PyExc Unit) :
    EPResult Unit × List MgrCall :=
  match user with
  | none => (.failure ⟨400, "The username is required."⟩, [])
  | some _ =>
    (match delRes with
     | .ok _ => .success 204 ()
     | .error e =>
       if e.kind = .userNotExist then .failure ⟨404, e.msg⟩
       else if e.kind = .privilegesError then .failure ⟨403, e.msg⟩
       else if e.kind = .userInUse then .failure ⟨409, e.msg⟩
       else if isCommandError e.kind then .failure ⟨500, e.msg⟩
       else .unhandled e,
     [.deleteUser])

/-! ## Group endpoints (src/api/endpoints/group_endpoint.py) -/

/-- GET /group/: one `get_groups` call; `except CommandError` maps to 500. -/
def get_groups (res : Except PyExc (List GroupT)) :
    EPResult (List GroupT) × List MgrCall :=
  (match res with
   | .ok v => .success 200 v
   | .error e =>
     if isCommandError e.kind then .failure ⟨500, e.msg⟩
     else .unhandled e,
   [.getGroups])

/-- GET /group/\x7bgroup\x7d: validates the path value, then one `get_group`
call; GroupNotExistError to 404, CommandError to 500. -/
def get_group (group : Option String) (res : Except PyExc GroupT) :
    EPResult GroupT × List MgrCall :=
  match group with
  | none => (.failure ⟨400, "The group is required."⟩, [])
  | some _ =>
    (match res with
     | .ok v => .success 200 v
     | .error e =>
       if e.kind = .groupNotExist then .failure ⟨404, e.msg⟩
       else if isCommandError e.kind then .failure ⟨500, e.msg⟩
       else .unhandled e,
     [.getGroup])

/-- The `except` chain of POST /group/: ValueError to 400, PrivilegesError
to 403, UserNotExistError to 404, GroupExistError to 409, CommandError to
500. -/
def post_group_translate (e : PyExc) : EPResult GroupT :=
  if isValueError e.kind then .failure ⟨400, e.msg⟩
  else if e.kind = .privilegesError then .failure ⟨403, e.msg⟩
  else if e.kind = .userNotExist then .failure ⟨404, e.msg⟩
  else if e.kind = .groupExist then .failure ⟨409, e.msg⟩
  else if isCommandError e.kind then .failure ⟨500, e.msg⟩
  else .unhandled e

/-- POST /group/: validates the body, then `add_group` followed by a
re-fetch via `get_group`; success answers 201 with the re-fetched group. -/
def post_group (group : Option GroupT) (addRes : Except PyExc Unit)
    (getRes : Except PyExc GroupT) : EPResult GroupT × List MgrCall :=
  match group with
  | none => (.failure ⟨400, "The group is required."⟩, [])
  | some g =>
    match g.name with
    | none => (.failure ⟨400, "The group is required."⟩, [])
    | some _ =>
      match addRes with
      | .error e => (post_group_translate e, [.addGroup])
      | .ok _ =>
        match getRes with
        | .error e => (post_group_translate e, [.addGroup, .getGroup])
        | .ok v => (.success 201 v, [.addGroup, .getGroup])

/-- The `except` chain of PUT /group/\x7bgroup_name\x7d: ValueError to 400,
PrivilegesError to 403, GroupNotExistError to 404, GroupExistError to 409,
CommandError to 500. -/
def put_group_translate (e : PyExc) : EPResult GroupT :=
  if isValueError e.kind then .failure ⟨400, e.msg⟩
  else if e.kind = .privilegesError then .failure ⟨403, e.msg⟩
  else if e.kind = .groupNotExist then .failure ⟨404, e.msg⟩
  else if e.kind = .groupExist then .failure ⟨409, e.msg⟩
  else if isCommandError e.kind then .failure ⟨500, e.msg⟩
  else .unhandled e

/-- PUT /group/\x7bgroup_name\x7d: validates the body only (the path value
`group_name` is passed to the manager unchecked), then `edit_group` followed
by a re-fetch via `get_group`; success answers 200. -/
def put_group (group : Option GroupT) (group_name : Option String)
    (editRes : Except PyExc Unit) (getRes : Except PyExc GroupT) :
    EPResult GroupT × List MgrCall :=
  match group with
  | none => (.failure ⟨400, "The group is required."⟩, [])
  | some g =>
    match g.name with
    | none => (.failure ⟨400, "The group is required."⟩, [])
    | some _ =>
      match editRes with
      | .error e => (put_group_translate e, [.editGroup])
      | .ok _ =>
        match getRes with
        | .error e => (put_group_translate e, [.editGroup, .getGroup])
        | .ok v => (.success 200 v, [.editGroup, .getGroup])

/-- The `except` chain of the two group-membership routes: PrivilegesError
to 403, GroupNotExistError to 404, UserNotExistError to 404, CommandError
to 500. -/
def group_membership_translate (e : PyExc) : EPResult GroupT :=
  if e.kind = .privilegesError then .failure ⟨403, e.msg⟩
  else if e.kind = .groupNotExist then .failure ⟨404, e.msg⟩
  else if e.kind = .userNotExist then .failure ⟨404, e.msg⟩
  else if isCommandError e.kind then .failure ⟨500, e.msg⟩
  else .unhandled e

/-- POST /group/\x7bgroup_name\x7d/add/\x7buser\x7d: validates both path
values, then `add_user_to_group` followed by a re-fetch via `get_group`;
success answers 200 with the updated group. -/
def add_user_to_group (group_name user : Option String)
    (addRes : Except PyExc Unit) (getRes : Except PyExc GroupT) :
    EPResult GroupT × List MgrCall :=
  match group_name with
  | none => (.failure ⟨400, "The group is required."⟩, [])
  | some _ =>
    match user with
    | none => (.failure ⟨400, "The user is required."⟩, [])
    | some _ =>
      match addRes with
      | .error e => (group_membership_translate e, [.addUserToGroup])
      | .ok _ =>
        match getRes with
        | .error e => (group_membership_translate e, [.addUserToGroup, .getGroup])
        | .ok v => (.success 200 v, [.addUserToGroup, .getGroup])

/-- DELETE /group/\x7bgroup_name\x7d/remove/\x7buser\x7d: validates both
path values, then `remove_user_from_group` followed by a re-fetch via
`get_group`; success answers 200 with the updated group. -/
def remove_user_from_group (group_name user : Option String)
    (remRes : Except PyExc Unit) (getRes : Except PyExc GroupT) :
    EPResult GroupT × List MgrCall :=
  match group_name with
  | none => (.failure ⟨400, "The group is required."⟩, [])
  | some _ =>
    match user with
    | none => (.failure ⟨400, "The user is required."⟩, [])
    | some _ =>
      match remRes with
      | .error e => (group_membership_translate e, [.removeUserFromGroup])
      | .ok _ =>
        match getRes with
        | .error e => (group_membership_translate e, [.removeUserFromGroup, .getGroup])
        | .ok v => (.success 200 v, [.removeUserFromGroup, .getGroup])

/-- DELETE /group/\x7bgroup_name\x7d: validates the path value, then one
`delete_group` call; PrivilegesError to 403, GroupNotExistError to 404,
CommandError to 500; success answers with the declared status code 200 and
no body (`response_model=None`, the handler returns `None`). -/
def delete_group (group_name : Option String) (delRes : Except PyExc Unit) :
    EPResult Unit × List MgrCall :=
  match group_name with
  | none => (.failure ⟨400, "The group is required."⟩, [])
  | some _ =>
    (match delRes with
     | .ok _ => .success 200 ()
     | .error e =>
       if e.kind = .privilegesError then .failure ⟨403, e.msg⟩
       else if e.kind = .groupNotExist then .failure ⟨404, e.msg⟩
       else if isCommandError e.kind then .failure ⟨500, e.msg⟩
       else .unhandled e,
     [.deleteGroup])

/-! ## Crontab endpoints (src/api/endpoints/crontab_endpoint.py) -/

/-- GET /crontab/: one `get_cron_jobs` call; NonexistentCrontabFileError to
404, CommandError to 500.  There is no PrivilegesError clause. -/
def get_crontabs (res : Except PyExc (List CronJobT)) :
    EPResult (List CronJobT) × List MgrCall :=
  (match res with
   | .ok v => .success 200 v
   | .error e =>
     if e.kind = .nonexistentCrontabFile then .failure ⟨404, e.msg⟩
     else if isCommandError e.kind then .failure ⟨500, e.msg⟩
     else .unhandled e,
   [.getCronJobs])

/-- POST /crontab/: one `add_cron_job` call; on success the handler returns
the request's own `cron_job`, the manager call returning nothing;
InvalidCronFormatError to 400, CommandError to 500. -/
def add_crontab (cron_job : CronJobT) (addRes : Except PyExc Unit) :
    EPResult CronJobT × List MgrCall :=
  (match addRes with
   | .ok _ => .success 201 cron_job
   | .error e =>
     if e.kind = .invalidCronFormat then .failure ⟨400, e.msg⟩
     else if isCommandError e.kind then .failure ⟨500, e.msg⟩
     else .unhandled e,
   [.addCronJob])

/-- PUT /crontab/: one `edit_cron_job` call; on success the handler returns
the request's own `new_cron_job`; InvalidCronFormatError to 400,
NonexistentCrontabFileError to 404, CommandError to 500. -/
def update_crontab (old_cron_job new_cron_job : CronJobT)
    (editRes : Except PyExc Unit) : EPResult CronJobT × List MgrCall :=
  (match editRes with
   | .ok _ => .success 200 new_cron_job
   | .error e =>
     if e.kind = .invalidCronFormat then .failure ⟨400, e.msg⟩
     else if e.kind = .nonexistentCrontabFile then .failure ⟨404, e.msg⟩
     else if isCommandError e.kind then .failure ⟨500, e.msg⟩
     else .unhandled e,
   [.editCronJob])

/-- DELETE /crontab/: one `delete_cron_job` call; NonexistentCrontabFileError
to 404, CommandError to 500; success answers 204, no body. -/
def delete_crontab (cron_job : CronJobT) (delRes : Except PyExc Unit) :
    EPResult Unit × List MgrCall :=
  (match delRes with
   | .ok _ => .success 204 ()
   | .error e =>
     if e.kind = .nonexistentCrontabFile then .failure ⟨404, e.msg⟩
     else if isCommandError e.kind then .failure ⟨500, e.msg⟩
     else .unhandled e,
   [.deleteCronJob])

/-! ## Hardware, storage and host endpoints -/

/-- GET /cpu (src/api/endpoints/hardware/cpu_endpoint.py): one `get_cpu`
call; `except CommandError` maps to 500. -/
def get_cpu {α : Type} (res : Except PyExc α) : EPResult α × List MgrCall :=
  (match res with
   | .ok v => .success 200 v
   | .error e =>
     if isCommandError e.kind then .failure ⟨500, e.msg⟩
     else .unhandled e,
   [.getCpu])

/-- GET /cpu/use: one `get_cpu_use` call; `except CommandError` maps to
500. -/
def get_cpu_use {α : Type} (res : Except PyExc α) : EPResult α × List MgrCall :=
  (match res with
   | .ok v => .success 200 v
   | .error e =>
     if isCommandError e.kind then .failure ⟨500, e.msg⟩
     else .unhandled e,
   [.getCpuUse])

/-- GET /cpu/temperature: one `get_cpu_temperature` call; `except
CommandError` maps to 500. -/
def get_cpu_temperature {α : Type} (res : Except PyExc α) :
    EPResult α × List MgrCall :=
  (match res with
   | .ok v => .success 200 v
   | .error e =>
     if isCommandError e.kind then .failure ⟨500, e.msg⟩
     else .unhandled e,
   [.getCpuTemperature])

/-- The `except` chain shared by the three GPU routes
(src/api/endpoints/hardware/gpu_endpoint.py): NotValidGpuError to 422,
DriverNotFound to 422, CommandError to 500. -/
def gpu_translate {α : Type} (e : PyExc) : EPResult α :=
  if e.kind = .notValidGpu then .failure ⟨422, e.msg⟩
  else if e.kind = .driverNotFound then .failure ⟨422, e.msg⟩
  else if isCommandError e.kind then .failure ⟨500, e.msg⟩
  else .unhandled e

/-- GET /gpu: `await GpuManager.init(command_manager)` then one `get_gpu`
call, both inside the same `try`. -/
def get_gpu {α : Type} (initRes : Except PyExc GpuManagerT)
    (res : Except PyExc α) : EPResult α × List MgrCall :=
  match initRes with
  | .error e => (gpu_translate e, [.gpuInit])
  | .ok _ =>
    match res with
    | .error e => (gpu_translate e, [.gpuInit, .getGpu])
    | .ok v => (.success 200 v, [.gpuInit, .getGpu])

/-- GET /gpu/use: `await GpuManager.init(command_manager)` then one
`get_use` call. -/
def get_gpu_use {α : Type} (initRes : Except PyExc GpuManagerT)
    (res : Except PyExc α) : EPResult α × List MgrCall :=
  match initRes with
  | .error e => (gpu_translate e, [.gpuInit])
  | .ok _ =>
    match res with
    | .error e => (gpu_translate e, [.gpuInit, .getGpuUse])
    | .ok v => (.success 200 v, [.gpuInit, .getGpuUse])

/-- GET /gpu/temperature: `await GpuManager.init(command_manager)` then one
`get_temperature` call. -/
def get_gpu_temperature {α : Type} (initRes : Except PyExc GpuManagerT)
    (res : Except PyExc α) : EPResult α × List MgrCall :=
  match initRes with
  | .error e => (gpu_translate e, [.gpuInit])
  | .ok _ =>
    match res with
    | .error e => (gpu_translate e, [.gpuInit, .getGpuTemperature])
    | .ok v => (.success 200 v, [.gpuInit, .getGpuTemperature])

/-- GET /ram/ (src/api/endpoints/hardware/ram_endpoint.py): one `get_ram`
call; PrivilegesError to 403, CommandError to 500. -/
def get_ram {α : Type} (res : Except PyExc α) : EPResult α × List MgrCall :=
  (match res with
   | .ok v => .success 200 v
   | .error e =>
     if e.kind = .privilegesError then .failure ⟨403, e.msg⟩
     else if isCommandError e.kind then .failure ⟨500, e.msg⟩
     else .unhandled e,
   [.getRam])

/-- A Python value in the /ram/use exchange: the `(size, use)` tuple the
manager returns, or the dict with keys "size" and "use" the handler builds.
In Python a tuple and a dict are never equal values. -/
inductive RamUseVal where
  | tup (a b : Nat)
  | dict (size use : Nat)
deriving DecidableEq

/-- The manager's `(size, use)` tuple viewed as a Python value. -/
def ramTupleVal (t : Nat × Nat) : RamUseVal := .tup t.1 t.2

/-- GET /ram/use: one `get_use` call returning a tuple; the handler answers
the dict with keys "size" and "use" built from the tuple's components (the
only endpoint that transforms its manager value); CommandError to 500.
There is no PrivilegesError clause. -/
def get_ram_use (res : Except PyExc (Nat × Nat)) :
    EPResult RamUseVal × List MgrCall :=
  (match res with
   | .ok t => .success 200 (.dict t.1 t.2)
   | .error e =>
     if isCommandError e.kind then .failure ⟨500, e.msg⟩
     else .unhandled e,
   [.getRamUse])

/-- GET /storage/disk/ (src/api/endpoints/storage_endpoint.py): one
`get_disks` call; `except CommandError` maps to 500. -/
def get_disks {α : Type} (res : Except PyExc α) : EPResult α × List MgrCall :=
  (match res with
   | .ok v => .success 200 v
   | .error e =>
     if isCommandError e.kind then .failure ⟨500, e.msg⟩
     else .unhandled e,
   [.getDisks])

/-- GET /host (src/api/endpoints/host_endpoint.py): one `get_host` call;
`except CommandError` maps to 500. -/
def get_host {α : Type} (res : Except PyExc α) : EPResult α × List MgrCall :=
  (match res with
   | .ok v => .success 200 v
   | .error e =>
     if isCommandError e.kind then .failure ⟨500, e.msg⟩
     else .unhandled e,
   [.getHost])

/-! ## The route table of declared success codes -/

/-- HTTP verb of a route decorator. -/
inductive Verb where
  | get | post | put | delete
deriving DecidableEq

/-- CRUD classification of an operation: reads (all plain GETs), creates
(resource creation), updates (modifications that answer the updated
resource — including the POST/DELETE group-membership routes, whose
decorators say "Returns the updated group."), deletes (resource removal). -/
inductive OpKind where
  | read | create | update | del
deriving DecidableEq

/-- One route: handler name, verb, the decorator's `status_code`, and its
CRUD classification. -/
structure Route where
  name : String
  verb : Verb
  successCode : Nat
  kind : OpKind
deriving DecidableEq

/-- The success code the spec's table assigns to each operation kind. -/
def expectedSuccess : OpKind → Nat
  | .read => 200
  | .update => 200
  | .create => 201
  | .del => 204

/-- Every route decorator in src/api/endpoints, with its declared
`status_code`. -/
def routes : List Route :=
  [⟨"make_login", .get, 200, .read⟩,
   ⟨"get_users", .get, 200, .read⟩,
   ⟨"get_user", .get, 200, .read⟩,
   ⟨"post_user", .post, 201, .create⟩,
   ⟨"put_user", .put, 200, .update⟩,
   ⟨"delete_user", .delete, 204, .del⟩,
   ⟨"get_groups", .get, 200, .read⟩,
   ⟨"get_group", .get, 200, .read⟩,
   ⟨"post_group", .post, 201, .create⟩,
   ⟨"put_group", .put, 200, .update⟩,
   ⟨"add_user_to_group", .post, 200, .update⟩,
   ⟨"remove_user_from_group", .delete, 200, .update⟩,
   ⟨"delete_group", .delete, 200, .del⟩,
   ⟨"get_crontabs", .get, 200, .read⟩,
   ⟨"add_crontab", .post, 201, .create⟩,
   ⟨"update_crontab", .put, 200, .update⟩,
   ⟨"delete_crontab", .delete, 204, .del⟩,
   ⟨"get_cpu", .get, 200, .read⟩,
   ⟨"get_cpu_use", .get, 200, .read⟩,
   ⟨"get_cpu_temperature", .get, 200, .read⟩,
   ⟨"get_gpu", .get, 200, .read⟩,
   ⟨"get_gpu_use", .get, 200, .read⟩,
   ⟨"get_gpu_temperature", .get, 200, .read⟩,
   ⟨"get_ram", .get, 200, .read⟩,
   ⟨"get_ram_use", .get, 200, .read⟩,
   ⟨"get_disks", .get, 200, .read⟩,
   ⟨"get_host", .get, 200, .read⟩]

/-! ## Claims about the execution-context factory -/

/-- Claim C1, amended: for every credential pair in which the identity or
the secret is absent (the header is missing), context creation fails with
HTTP 400 "Required headers are missing." and `CommandManager.init` is never
invoked.  (An empty-but-present identity or secret passes the `is None`
guard: see the counterexample.) -/
theorem c1_absent_credentials_fail_fast (world : OsWorld)
    (u p : Option String) (h : u = none ∨ p = none) :
    auth_user world u p
      = (.httpError ⟨400, "Required headers are missing."⟩, false) := by
  rcases h with h | h
  · subst h; rfl
  · subst h; cases u <;> rfl

/-- Witness for C1 at a concrete absent identity. -/
theorem c1_absent_credentials_fail_fast_witness :
    auth_user ⟨[], false⟩ none (some "x")
      = (.httpError ⟨400, "Required headers are missing."⟩, false) :=
  c1_absent_credentials_fail_fast ⟨[], false⟩ none (some "x") (Or.inl rfl)

/-- Claim C1, counterexample: with both credentials present but empty, the
guard does not fire: `CommandManager.init` is invoked (second component
`true`) and, here against an empty password database, the outcome is the
401 authentication failure, not the 400 missing-credentials outcome. -/
theorem c1_empty_credentials_reach_os_check :
    auth_user ⟨[], false⟩ (some "") (some "")
      = (.httpError ⟨401, "Authentication failure."⟩, true) := by
  rfl

/-- Claim C4, amended: a present, ASCII secret that the base64 decoder
rejects with `binascii.Error` yields HTTP 400 carrying the decoder's message
and `CommandManager.init` is never attempted; a present secret with a
non-ASCII character instead makes `b64decode` raise a plain `ValueError`
that no handler of `auth_user` catches (still without attempting
`CommandManager.init`). -/
theorem c4_malformed_base64_rejected_before_init :
    (∀ (world : OsWorld) (u p : String) (e : BinErr),
        pyB64Decode p = .binError e →
        auth_user world (some u) (some p)
          = (.httpError ⟨400, binErrMsg e⟩, false)) ∧
    (∀ (world : OsWorld) (u p : String),
        pyB64Decode p = .asciiError →
        auth_user world (some u) (some p)
          = (.uncaught .valueErrorNonAscii, false)) := by
  constructor
  · intro world u p e h
    simp [auth_user, authUserBody, h, authExcToHttp]
  · intro world u p h
    simp [auth_user, authUserBody, h, authExcToHttp]

/-- Witness for C4 at the concrete malformed secrets "a" (one data
character) and "eA=" (insufficient padding). -/
theorem c4_malformed_base64_rejected_before_init_witness :
    auth_user ⟨[], false⟩ (some "alice") (some "a")
      = (.httpError ⟨400, binErrMsg (.invalidLength 1)⟩, false) ∧
    auth_user ⟨[], false⟩ (some "alice") (some "eA=")
      = (.httpError ⟨400, binErrMsg .incorrectPadding⟩, false) :=
  ⟨c4_malformed_base64_rejected_before_init.1 ⟨[], false⟩ "alice" "a"
      (.invalidLength 1) (by rfl),
   c4_malformed_base64_rejected_before_init.1 ⟨[], false⟩ "alice" "eA="
      .incorrectPadding (by rfl)⟩

/-- Claim C4, counterexample: the secret "é" is present and not decodable,
yet the outcome is not the HTTP 400 malformed-encoding response: the
`ValueError` raised by `b64decode` on a non-ASCII string is not a
`binascii.Error`, so it escapes every handler of `auth_user`. -/
theorem c4_non_ascii_secret_escapes_mapping :
    auth_user ⟨[], false⟩ (some "alice") (some "é")
      = (.uncaught .valueErrorNonAscii, false) := by
  rfl

/-- Claim C5: missing credentials and malformed encoding are translated by
distinct paths to distinct responses — missing yields the fixed HTTP 400
"Required headers are missing." before any decoding, malformed yields HTTP
400 carrying the decoder's own message, and the two messages always differ —
and neither path ever produces the HTTP 401 authentication-failure outcome
(both produce status 400, which is not 401). -/
theorem c5_missing_and_malformed_distinct_outcomes :
    (∀ (world : OsWorld) (u p : Option String), (u = none ∨ p = none) →
        auth_user world u p
          = (.httpError ⟨400, "Required headers are missing."⟩, false)) ∧
    (∀ (world : OsWorld) (u p : String) (e : BinErr),
        pyB64Decode p = .binError e →
        auth_user world (some u) (some p)
          = (.httpError ⟨400, binErrMsg e⟩, false)) ∧
    (∀ e : BinErr, binErrMsg e ≠ "Required headers are missing.") ∧
    (400 : Nat) ≠ 401 := by
  refine ⟨?_, ?_, ?_, by decide⟩
  · intro world u p h
    rcases h with h | h
    · subst h; rfl
    · subst h; cases u <;> rfl
  · intro world u p e h
    simp [auth_user, authUserBody, h, authExcToHttp]
  · intro e
    cases e with
    | incorrectPadding => decide
    | invalidLength n =>
      intro h
      have hlen := congrArg String.length h
      rw [binErrMsg, String.length_append, String.length_append] at hlen
      have h1 : ("Invalid base64-encoded string: number of data characters (" : String).length = 58 := rfl
      have h2 : (") cannot be 1 more than a multiple of 4" : String).length = 39 := rfl
      have h3 : ("Required headers are missing." : String).length = 29 := rfl
      omega

/-- Witness for C5: the two failure kinds at concrete inputs. -/
theorem c5_missing_and_malformed_distinct_outcomes_witness :
    auth_user ⟨[], false⟩ none (some "x")
      = (.httpError ⟨400, "Required headers are missing."⟩, false) ∧
    auth_user ⟨[], false⟩ (some "bob") (some "abc")
      = (.httpError ⟨400, binErrMsg .incorrectPadding⟩, false) :=
  ⟨c5_missing_and_malformed_distinct_outcomes.1 ⟨[], false⟩ none (some "x")
      (Or.inl rfl),
   c5_missing_and_malformed_distinct_outcomes.2.1 ⟨[], false⟩ "bob" "abc"
      .incorrectPadding (by rfl)⟩

/-- Claim C6: a valid-encoding wrong-secret pair and an unknown-identity
pair both fail context creation with the same HTTP 401 response, so the
caller cannot distinguish the two cases by the response. -/
theorem c6_wrong_secret_unknown_identity_same_status
    (world : OsWorld) (u1 p1 u2 p2 n : String) (b1 b2 pw : List Nat)
    (hf : world.execFault = false)
    (h1 : pyB64Decode p1 = .ok b1) (hv1 : validUtf8 b1 = true)
    (hw : world.users.find? (fun e => e.1 == u1) = some (n, pw))
    (hne : pw ≠ b1)
    (h2 : pyB64Decode p2 = .ok b2) (hv2 : validUtf8 b2 = true)
    (hn : world.users.find? (fun e => e.1 == u2) = none) :
    auth_user world (some u1) (some p1)
      = (.httpError ⟨401, "Authentication failure."⟩, true) ∧
    auth_user world (some u2) (some p2)
      = (.httpError ⟨401, "Authentication failure."⟩, true) := by
  constructor
  · simp [auth_user, authUserBody, h1, hv1, commandManagerInit, hf, hw,
      authExcToHttp, beq_iff_eq, hne]
  · simp [auth_user, authUserBody, h2, hv2, commandManagerInit, hf, hn,
      authExcToHttp]

/-- Witness for C6: alice exists with password bytes of "p" but the secret
decodes to "x"; bob does not exist; both runs answer 401. -/
theorem c6_wrong_secret_unknown_identity_same_status_witness :
    auth_user ⟨[("alice", [112])], false⟩ (some "alice") (some "eA==")
      = (.httpError ⟨401, "Authentication failure."⟩, true) ∧
    auth_user ⟨[("alice", [112])], false⟩ (some "bob") (some "eA==")
      = (.httpError ⟨401, "Authentication failure."⟩, true) :=
  c6_wrong_secret_unknown_identity_same_status ⟨[("alice", [112])], false⟩
    "alice" "eA==" "bob" "eA==" "alice" [120] [120] [112]
    rfl (by rfl) (by rfl) (by rfl) (by decide) (by rfl) (by rfl) (by rfl)

/-- Claim C10: a secret that is valid base64 but whose decoded bytes are not
valid UTF-8 makes `.decode('utf-8')` raise `UnicodeDecodeError`, which none
of the three handlers of `auth_user` catches, so the failure escapes the
gateway's 400/401/500 mapping (and `CommandManager.init` is not reached). -/
theorem c10_invalid_utf8_secret_escapes_handlers
    (world : OsWorld) (u p : String) (bytes : List Nat)
    (h : pyB64Decode p = .ok bytes) (hv : validUtf8 bytes = false) :
    auth_user world (some u) (some p)
      = (.uncaught .unicodeDecodeError, false) ∧
    authExcToHttp .unicodeDecodeError = none := by
  refine ⟨?_, rfl⟩
  simp [auth_user, authUserBody, h, hv, authExcToHttp]

/-- Witness for C10: the secret "/w==" decodes to the byte 0xFF, which is
not valid UTF-8. -/
theorem c10_invalid_utf8_secret_escapes_handlers_witness :
    auth_user ⟨[], false⟩ (some "alice") (some "/w==")
      = (.uncaught .unicodeDecodeError, false) ∧
    authExcToHttp .unicodeDecodeError = none :=
  c10_invalid_utf8_secret_escapes_handlers ⟨[], false⟩ "alice" "/w==" [255]
    (by rfl) (by rfl)

/-! ## Claims about the error-taxonomy translation -/

/-- Claim C2, counterexample: `get_crontabs` has no PrivilegesError clause,
so a privilege failure raised by the crontab manager is absorbed by the
CommandError catch-all and reported as HTTP 500, not 403. -/
theorem c2_crontab_privilege_failure_reported_500 :
    (get_crontabs (.error ⟨.privilegesError, "The user has not privileges."⟩)).1
      = .failure ⟨500, "The user has not privileges."⟩ ∧
    (get_crontabs (.error ⟨.privilegesError, "The user has not privileges."⟩)).1
      ≠ .failure ⟨403, "The user has not privileges."⟩ := by
  exact ⟨rfl, by decide⟩

/-- Claim C2, amended: a privilege failure maps to HTTP 403 exactly in the
operations that declare a PrivilegesError clause (user create/update/delete,
group create/update/membership/delete, RAM module listing); in every other
operation (user/group reads, crontab, CPU, GPU, RAM use, storage, host) the
privilege failure is absorbed by the CommandError catch-all and reported as
the generic HTTP 500 execution failure. -/
theorem c2_privilege_failure_mapping_per_endpoint :
    (∀ m, post_user_translate ⟨.privilegesError, m⟩ = .failure ⟨403, m⟩) ∧
    (∀ m, put_user_translate ⟨.privilegesError, m⟩ = .failure ⟨403, m⟩) ∧
    (∀ m u, (delete_user (some u) (.error ⟨.privilegesError, m⟩)).1
      = .failure ⟨403, m⟩) ∧
    (∀ m, post_group_translate ⟨.privilegesError, m⟩ = .failure ⟨403, m⟩) ∧
    (∀ m, put_group_translate ⟨.privilegesError, m⟩ = .failure ⟨403, m⟩) ∧
    (∀ m, group_membership_translate ⟨.privilegesError, m⟩ = .failure ⟨403, m⟩) ∧
    (∀ m g, (delete_group (some g) (.error ⟨.privilegesError, m⟩)).1
      = .failure ⟨403, m⟩) ∧
    (∀ m, (@get_ram Unit (.error ⟨.privilegesError, m⟩)).1 = .failure ⟨403, m⟩) ∧
    (∀ m, (get_users (.error ⟨.privilegesError, m⟩)).1 = .failure ⟨500, m⟩) ∧
    (∀ m u, (get_user (some u) (.error ⟨.privilegesError, m⟩)).1
      = .failure ⟨500, m⟩) ∧
    (∀ m, (get_groups (.error ⟨.privilegesError, m⟩)).1 = .failure ⟨500, m⟩) ∧
    (∀ m g, (get_group (some g) (.error ⟨.privilegesError, m⟩)).1
      = .failure ⟨500, m⟩) ∧
    (∀ m, (get_crontabs (.error ⟨.privilegesError, m⟩)).1 = .failure ⟨500, m⟩) ∧
    (∀ m c, (add_crontab c (.error ⟨.privilegesError, m⟩)).1 = .failure ⟨500, m⟩) ∧
    (∀ m c d, (update_crontab c d (.error ⟨.privilegesError, m⟩)).1
      = .failure ⟨500, m⟩) ∧
    (∀ m c, (delete_crontab c (.error ⟨.privilegesError, m⟩)).1
      = .failure ⟨500, m⟩) ∧
    (∀ m, (@get_cpu Unit (.error ⟨.privilegesError, m⟩)).1 = .failure ⟨500, m⟩) ∧
    (∀ m, (@get_cpu_use Unit (.error ⟨.privilegesError, m⟩)).1 = .failure ⟨500, m⟩) ∧
    (∀ m, (@get_cpu_temperature Unit (.error ⟨.privilegesError, m⟩)).1
      = .failure ⟨500, m⟩) ∧
    (∀ m, @gpu_translate Unit ⟨.privilegesError, m⟩ = .failure ⟨500, m⟩) ∧
    (∀ m, (get_ram_use (.error ⟨.privilegesError, m⟩)).1 = .failure ⟨500, m⟩) ∧
    (∀ m, (@get_disks Unit (.error ⟨.privilegesError, m⟩)).1 = .failure ⟨500, m⟩) ∧
    (∀ m, (@get_host Unit (.error ⟨.privilegesError, m⟩)).1 = .failure ⟨500, m⟩) :=
  ⟨fun _ => rfl, fun _ => rfl, fun _ _ => rfl, fun _ => rfl, fun _ => rfl,
   fun _ => rfl, fun _ _ => rfl, fun _ => rfl, fun _ => rfl, fun _ _ => rfl,
   fun _ => rfl, fun _ _ => rfl, fun _ => rfl, fun _ _ => rfl,
   fun _ _ _ => rfl, fun _ _ => rfl, fun _ => rfl, fun _ => rfl,
   fun _ => rfl, fun _ => rfl, fun _ => rfl, fun _ => rfl, fun _ => rfl⟩

/-- Claim C3, counterexample: the not-found failure GroupNotExistError maps
to HTTP 400 in `post_user` but to HTTP 404 in `get_group`, so the
failure-kind-to-status mapping is not a single fixed function and a
not-found failure does not map to 404 in every operation that can raise
it. -/
theorem c3_group_not_found_maps_400_in_post_user :
    (post_user (some ⟨some "bob", none⟩)
        (.error ⟨.groupNotExist, "The group not exists."⟩)
        (.ok ⟨some "bob", none⟩)).1
      = .failure ⟨400, "The group not exists."⟩ ∧
    (get_group (some "g") (.error ⟨.groupNotExist, "The group not exists."⟩)).1
      = .failure ⟨404, "The group not exists."⟩ ∧
    (400 : Nat) ≠ 404 := by
  exact ⟨rfl, rfl, by decide⟩

/-- Claim C3, amended: each endpoint hand-rolls its own exception chain;
every not-found failure it handles maps to HTTP 404, with one exception:
in `post_user` and `put_user` a GroupNotExistError (the referenced group of
a user being created or updated does not exist) maps to HTTP 400, as their
own docstrings state. -/
theorem c3_not_found_mapping_per_endpoint :
    (∀ m u, (get_user (some u) (.error ⟨.userNotExist, m⟩)).1
      = .failure ⟨404, m⟩) ∧
    (∀ m, put_user_translate ⟨.userNotExist, m⟩ = .failure ⟨404, m⟩) ∧
    (∀ m u, (delete_user (some u) (.error ⟨.userNotExist, m⟩)).1
      = .failure ⟨404, m⟩) ∧
    (∀ m g, (get_group (some g) (.error ⟨.groupNotExist, m⟩)).1
      = .failure ⟨404, m⟩) ∧
    (∀ m, post_group_translate ⟨.userNotExist, m⟩ = .failure ⟨404, m⟩) ∧
    (∀ m, put_group_translate ⟨.groupNotExist, m⟩ = .failure ⟨404, m⟩) ∧
    (∀ m, group_membership_translate ⟨.groupNotExist, m⟩ = .failure ⟨404, m⟩) ∧
    (∀ m, group_membership_translate ⟨.userNotExist, m⟩ = .failure ⟨404, m⟩) ∧
    (∀ m g, (delete_group (some g) (.error ⟨.groupNotExist, m⟩)).1
      = .failure ⟨404, m⟩) ∧
    (∀ m, (get_crontabs (.error ⟨.nonexistentCrontabFile, m⟩)).1
      = .failure ⟨404, m⟩) ∧
    (∀ m c d, (update_crontab c d (.error ⟨.nonexistentCrontabFile, m⟩)).1
      = .failure ⟨404, m⟩) ∧
    (∀ m c, (delete_crontab c (.error ⟨.nonexistentCrontabFile, m⟩)).1
      = .failure ⟨404, m⟩) ∧
    (∀ m, post_user_translate ⟨.groupNotExist, m⟩ = .failure ⟨400, m⟩) ∧
    (∀ m, put_user_translate ⟨.groupNotExist, m⟩ = .failure ⟨400, m⟩) :=
  ⟨fun _ _ => rfl, fun _ => rfl, fun _ _ => rfl, fun _ _ => rfl,
   fun _ => rfl, fun _ => rfl, fun _ => rfl, fun _ => rfl, fun _ _ => rfl,
   fun _ => rfl, fun _ _ _ => rfl, fun _ _ => rfl, fun _ => rfl,
   fun _ => rfl⟩

/-! ## Claims about the dispatcher pattern -/

/-- Claim C7, counterexample: the route decorator of `delete_group` declares
success status 200, not 204, although it is a delete (its handler returns no
body); `expectedSuccess` gives the spec's 204 for deletes. -/
theorem c7_delete_group_declares_200 :
    Route.mk "delete_group" .delete 200 .del ∈ routes ∧
    expectedSuccess .del = 204 ∧
    (delete_group (some "g") (.ok ())).1 = .success 200 () := by
  exact ⟨by decide, rfl, rfl⟩

/-- Claim C7, amended: every successful operation answers 200 for reads and
updates, 201 for creates and 204 with no body for deletes — except
`delete_group`, whose decorator declares 200 (still with no body).  The
other two deletes (`delete_user`, `delete_crontab`) do answer 204 with no
body. -/
theorem c7_success_codes_per_route :
    (∀ r ∈ routes, r.name ≠ "delete_group" →
        r.successCode = expectedSuccess r.kind) ∧
    Route.mk "delete_group" .delete 200 .del ∈ routes ∧
    (∀ u, (delete_user (some u) (.ok ())).1 = .success 204 ()) ∧
    (∀ c, (delete_crontab c (.ok ())).1 = .success 204 ()) ∧
    (∀ g, (delete_group (some g) (.ok ())).1 = .success 200 ()) := by
  exact ⟨by decide, by decide, fun _ => rfl, fun _ => rfl, fun _ => rfl⟩

/-- Witness for C7 at the concrete route `delete_user`. -/
theorem c7_success_codes_per_route_witness :
    (Route.mk "delete_user" .delete 204 .del).successCode
      = expectedSuccess (Route.mk "delete_user" .delete 204 .del).kind :=
  c7_success_codes_per_route.1 (Route.mk "delete_user" .delete 204 .del)
    (by decide) (by decide)

/-- Claim C9, counterexample: on success `get_ram_use` does not emit the
manager's value verbatim: the manager returns the tuple `(3, 1)` and the
handler answers the dict with keys "size" and "use", a different Python
value. -/
theorem c9_ram_use_transforms_manager_value :
    (get_ram_use (.ok (3, 1))).1 = .success 200 (RamUseVal.dict 3 1) ∧
    RamUseVal.dict 3 1 ≠ ramTupleVal (3, 1) := by
  exact ⟨rfl, by decide⟩

/-- Claim C9, amended: on success every endpoint emits the value of its last
domain-manager call verbatim, with three deviations: `get_ram_use` repacks
the manager's `(size, use)` tuple into a dict, and `add_crontab` and
`update_crontab` echo the request's own cron job (their manager calls return
nothing). -/
theorem c9_success_values_verbatim :
    (∀ v, (get_users (.ok v)).1 = .success 200 v) ∧
    (∀ u v, (get_user (some u) (.ok v)).1 = .success 200 v) ∧
    (∀ n pw v, (post_user (some ⟨some n, pw⟩) (.ok ()) (.ok v)).1
      = .success 201 v) ∧
    (∀ u n pw v, (put_user (some u) (some ⟨n, pw⟩) (.ok ()) (.ok v)).1
      = .success 200 v) ∧
    (∀ v, (get_groups (.ok v)).1 = .success 200 v) ∧
    (∀ g v, (get_group (some g) (.ok v)).1 = .success 200 v) ∧
    (∀ n v, (post_group (some ⟨some n⟩) (.ok ()) (.ok v)).1 = .success 201 v) ∧
    (∀ n gn v, (put_group (some ⟨some n⟩) gn (.ok ()) (.ok v)).1
      = .success 200 v) ∧
    (∀ g u v, (add_user_to_group (some g) (some u) (.ok ()) (.ok v)).1
      = .success 200 v) ∧
    (∀ g u v, (remove_user_from_group (some g) (some u) (.ok ()) (.ok v)).1
      = .success 200 v) ∧
    (∀ v, (get_crontabs (.ok v)).1 = .success 200 v) ∧
    (∀ c, (add_crontab c (.ok ())).1 = .success 201 c) ∧
    (∀ c d, (update_crontab c d (.ok ())).1 = .success 200 d) ∧
    (∀ v : Nat, (get_cpu (.ok v)).1 = .success 200 v) ∧
    (∀ v : Nat, (get_cpu_use (.ok v)).1 = .success 200 v) ∧
    (∀ v : Nat, (get_cpu_temperature (.ok v)).1 = .success 200 v) ∧
    (∀ v : Nat, (get_gpu (.ok .mk) (.ok v)).1 = .success 200 v) ∧
    (∀ v : Nat, (get_gpu_use (.ok .mk) (.ok v)).1 = .success 200 v) ∧
    (∀ v : Nat, (get_gpu_temperature (.ok .mk) (.ok v)).1 = .success 200 v) ∧
    (∀ v : Nat, (get_ram (.ok v)).1 = .success 200 v) ∧
    (∀ a b, (get_ram_use (.ok (a, b))).1 = .success 200 (RamUseVal.dict a b)) ∧
    (∀ a b, RamUseVal.dict a b ≠ ramTupleVal (a, b)) ∧
    (∀ v : Nat, (get_disks (.ok v)).1 = .success 200 v) ∧
    (∀ v : Nat, (get_host (.ok v)).1 = .success 200 v) :=
  ⟨fun _ => rfl, fun _ _ => rfl, fun _ _ _ => rfl, fun _ _ _ _ => rfl,
   fun _ => rfl, fun _ _ => rfl, fun _ _ => rfl, fun _ _ _ => rfl,
   fun _ _ _ => rfl, fun _ _ _ => rfl, fun _ => rfl, fun _ => rfl,
   fun _ _ => rfl, fun _ => rfl, fun _ => rfl, fun _ => rfl, fun _ => rfl,
   fun _ => rfl, fun _ => rfl, fun _ => rfl, fun _ _ => rfl,
   fun _ _ => by simp [ramTupleVal], fun _ => rfl, fun _ => rfl⟩

/-- Claim C8, counterexample: on its success path `post_user` invokes two
domain-manager methods — `add_user` followed by `get_user` — not exactly
one. -/
theorem c8_post_user_invokes_two_manager_methods :
    (post_user (some ⟨some "bob", none⟩) (.ok ()) (.ok ⟨some "bob", none⟩)).2
      = [.addUser, .getUser] ∧
    [MgrCall.addUser, MgrCall.getUser].length ≠ 1 := by
  exact ⟨rfl, by decide⟩

/-- Claim C8, amended: every operation is a single attempt — no manager
method ever appears twice in a request's call trace — and reads and deletes
invoke exactly one domain-manager method once validation passes; but the
user/group create, update and membership operations invoke two distinct
methods on success (the mutation followed by a re-fetch of the resource),
the GPU reads await the async manager factory before their single query,
and `make_login` invokes none. -/
theorem c8_call_traces_single_attempt :
    (∀ cm, (make_login cm).2 = []) ∧
    (∀ r, (get_users r).2 = [.getUsers]) ∧
    (∀ u r, (get_user u r).2 = [] ∨ (get_user u r).2 = [.getUser]) ∧
    (∀ u a g, (post_user u a g).2 = [] ∨ (post_user u a g).2 = [.addUser] ∨
      (post_user u a g).2 = [.addUser, .getUser]) ∧
    (∀ u c a g, (put_user u c a g).2 = [] ∨
      (put_user u c a g).2 = [.editUser] ∨
      (put_user u c a g).2 = [.editUser, .getUser]) ∧
    (∀ u d, (delete_user u d).2 = [] ∨ (delete_user u d).2 = [.deleteUser]) ∧
    (∀ r, (get_groups r).2 = [.getGroups]) ∧
    (∀ g r, (get_group g r).2 = [] ∨ (get_group g r).2 = [.getGroup]) ∧
    (∀ g a f, (post_group g a f).2 = [] ∨ (post_group g a f).2 = [.addGroup] ∨
      (post_group g a f).2 = [.addGroup, .getGroup]) ∧
    (∀ g n a f, (put_group g n a f).2 = [] ∨
      (put_group g n a f).2 = [.editGroup] ∨
      (put_group g n a f).2 = [.editGroup, .getGroup]) ∧
    (∀ g u a f, (add_user_to_group g u a f).2 = [] ∨
      (add_user_to_group g u a f).2 = [.addUserToGroup] ∨
      (add_user_to_group g u a f).2 = [.addUserToGroup, .getGroup]) ∧
    (∀ g u a f, (remove_user_from_group g u a f).2 = [] ∨
      (remove_user_from_group g u a f).2 = [.removeUserFromGroup] ∨
      (remove_user_from_group g u a f).2 = [.removeUserFromGroup, .getGroup]) ∧
    (∀ g d, (delete_group g d).2 = [] ∨
      (delete_group g d).2 = [.deleteGroup]) ∧
    (∀ r, (get_crontabs r).2 = [.getCronJobs]) ∧
    (∀ c a, (add_crontab c a).2 = [.addCronJob]) ∧
    (∀ c d e, (update_crontab c d e).2 = [.editCronJob]) ∧
    (∀ c d, (delete_crontab c d).2 = [.deleteCronJob]) ∧
    (∀ r : Except PyExc Unit, (get_cpu r).2 = [.getCpu]) ∧
    (∀ r : Except PyExc Unit, (get_cpu_use r).2 = [.getCpuUse]) ∧
    (∀ r : Except PyExc Unit, (get_cpu_temperature r).2
      = [.getCpuTemperature]) ∧
    (∀ i (r : Except PyExc Unit), (get_gpu i r).2 = [.gpuInit] ∨
      (get_gpu i r).2 = [.gpuInit, .getGpu]) ∧
    (∀ i (r : Except PyExc Unit), (get_gpu_use i r).2 = [.gpuInit] ∨
      (get_gpu_use i r).2 = [.gpuInit, .getGpuUse]) ∧
    (∀ i (r : Except PyExc Unit), (get_gpu_temperature i r).2 = [.gpuInit] ∨
      (get_gpu_temperature i r).2 = [.gpuInit, .getGpuTemperature]) ∧
    (∀ r : Except PyExc Unit, (get_ram r).2 = [.getRam]) ∧
    (∀ r, (get_ram_use r).2 = [.getRamUse]) ∧
    (∀ r : Except PyExc Unit, (get_disks r).2 = [.getDisks]) ∧
    (∀ r : Except PyExc Unit, (get_host r).2 = [.getHost]) ∧
    List.Nodup [MgrCall.addUser, .getUser] ∧
    List.Nodup [MgrCall.editUser, .getUser] ∧
    List.Nodup [MgrCall.addGroup, .getGroup] ∧
    List.Nodup [MgrCall.editGroup, .getGroup] ∧
    List.Nodup [MgrCall.addUserToGroup, .getGroup] ∧
    List.Nodup [MgrCall.removeUserFromGroup, .getGroup] ∧
    List.Nodup [MgrCall.gpuInit, .getGpu] ∧
    List.Nodup [MgrCall.gpuInit, .getGpuUse] ∧
    List.Nodup [MgrCall.gpuInit, .getGpuTemperature] := by
  refine ⟨fun _ => rfl, fun _ => rfl, ?_, ?_, ?_, ?_, fun _ => rfl, ?_, ?_,
    ?_, ?_, ?_, ?_, fun _ => rfl, fun _ _ => rfl, fun _ _ _ => rfl,
    fun _ _ => rfl, fun _ => rfl, fun _ => rfl, fun _ => rfl, ?_, ?_, ?_,
    fun _ => rfl, fun _ => rfl, fun _ => rfl, fun _ => rfl,
    by decide, by decide, by decide, by decide, by decide, by decide,
    by decide, by decide, by decide⟩
  · rintro (_ | u) r
    · left; rfl
    · right; rfl
  · rintro (_ | ⟨_ | n, pw⟩) (a | a) (g | g) <;> simp [post_user]
  · rintro (_ | u) (_ | c) (a | a) (g | g) <;> simp [put_user]
  · rintro (_ | u) d
    · left; rfl
    · right; rfl
  · rintro (_ | g) r
    · left; rfl
    · right; rfl
  · rintro (_ | ⟨_ | n⟩) (a | a) (f | f) <;> simp [post_group]
  · rintro (_ | ⟨_ | n⟩) gn (a | a) (f | f) <;> simp [put_group]
  · rintro (_ | g) (_ | u) (a | a) (f | f) <;> simp [add_user_to_group]
  · rintro (_ | g) (_ | u) (a | a) (f | f) <;> simp [remove_user_from_group]
  · rintro (_ | g) d
    · left; rfl
    · right; rfl
  · rintro (i | i) (r | r) <;> simp [get_gpu]
  · rintro (i | i) (r | r) <;> simp [get_gpu_use]
  · rintro (i | i) (r | r) <;> simp [get_gpu_temperature]
